import Mathlib

/-!
Verification of the furniture CRUD API (`src/main.py`).

The API layer (handlers in `main.py`) is embedded directly.  The document
store adapter (`database.py`) and the `Furniture` schema (`schemas.py`) are
not part of the sources; their behaviour is modelled from the spec
(§4.1 "Document Store Adapter"): the collection is a list of documents,
`find` filters it, `insert` appends with a store-assigned id, and every
operation fails with `StoreUnavailable` when no connection is established.
MongoDB filter semantics (`$regex` with the `i` option, `_id` equality,
`$set`, `find_one_and_update`, `delete_one`) are embedded from their
documented behaviour; the regular-expression fragment covered is patterns
built from literal characters and the `.` metacharacter, which suffices for
the properties below.
-/

/-- An HTTP handler outcome: a 200 body, or an `HTTPException` that FastAPI
renders as status `status` with JSON body `{"detail": detail}`. -/
inductive Resp (α : Type) where
  | ok (body : α)
  | error (status : Nat) (detail : String)
deriving DecidableEq, Repr

def Resp.status {α : Type} : Resp α → Nat
  | .ok _ => 200
  | .error s _ => s

def Resp.detailOf {α : Type} : Resp α → Option String
  | .ok _ => none
  | .error _ m => some m

/-! ### ObjectId parsing (`bson.ObjectId`) -/

def isHexChar (c : Char) : Bool :=
  (('0' ≤ c && c ≤ '9') || ('a' ≤ c && c ≤ 'f') || ('A' ≤ c && c ≤ 'F'))

def hexLower (c : Char) : Char :=
  if 'A' ≤ c && c ≤ 'F' then Char.toLower c else c

/-- `ObjectId(item_id)`: accepts exactly 24 hexadecimal characters and
normalises to lowercase; any other string raises `InvalidId`. -/
def parseObjectId (s : String) : Option String :=
  if s.length = 24 && s.data.all isHexChar then
    some (String.mk (s.data.map hexLower))
  else none

def invalidIdMessage (s : String) : String :=
  s ++ " is not a valid ObjectId, it must be a 12-byte input or a 24-character hex string"

/-! ### `$regex` with option `i` (case-insensitive, unanchored search)

Embedded from the documented PCRE behaviour for the fragment of patterns
made of literal characters and the `.` metacharacter (which matches any
character except a newline). -/

inductive RAtom where
  | dot
  | lit (c : Char)
deriving DecidableEq, Repr

def parseRx (q : String) : List RAtom :=
  q.data.map fun c => if c = '.' then RAtom.dot else RAtom.lit c

def foldCase (c : Char) : Char := Char.toLower c

def atomMatches : RAtom → Char → Bool
  | RAtom.dot, d => d ≠ '\n'
  | RAtom.lit c, d => foldCase c = foldCase d

def matchPrefix : List RAtom → List Char → Bool
  | [], _ => true
  | _ :: _, [] => false
  | a :: p, c :: s => atomMatches a c && matchPrefix p s

def searchFrom : List RAtom → List Char → Bool
  | p, [] => matchPrefix p []
  | p, s@(_ :: cs) => matchPrefix p s || searchFrom p cs

/-- `{"$regex": q, "$options": "i"}` applied to string `s`. -/
def regexSearchI (q s : String) : Bool :=
  searchFrom (parseRx q) s.data

/-- The characters that are special in a regular expression. -/
def isRegexMeta (c : Char) : Bool :=
  c ∈ ['\\', '^', '$', '.', '|', '?', '*', '+', '(', ')', '[', ']', '\x7b', '\x7d']

/-! Spec-side definition (for the refinement claims): case-insensitive
substring containment, the spec's "case-insensitive substring match on
`name`". -/

def isPrefixCF : List Char → List Char → Bool
  | [], _ => true
  | _ :: _, [] => false
  | a :: p, b :: s => (foldCase a = foldCase b) && isPrefixCF p s

def isSubstrCF : List Char → List Char → Bool
  | p, [] => isPrefixCF p []
  | p, s@(_ :: cs) => isPrefixCF p s || isSubstrCF p cs

/-- Spec-side: `q` occurs in `s` as a case-insensitive substring. -/
def containsCI (q s : String) : Bool :=
  isSubstrCF q.data s.data

/-! ### Data model -/

/-- A stored document of the `furniture` collection.  `name`, `category` and
`price` are required by the record schema; `stock` and `updated_at` may be
absent (`none`).  Numeric JSON values are modelled as rationals. -/
structure Doc where
  oid : String
  name : String
  category : String
  material : Option String
  price : ℚ
  stock : Option Int
  width_cm : Option ℚ
  depth_cm : Option ℚ
  height_cm : Option ℚ
  image_url : Option String
  updated_at : Option Nat
deriving DecidableEq, Repr

/-- The request body of POST/PUT as received: optional fields may be
omitted (`none`). -/
structure FurniturePayload where
  name : String
  category : String
  material : Option String
  price : ℚ
  stock : Option Int
  width_cm : Option ℚ
  depth_cm : Option ℚ
  height_cm : Option ℚ
  image_url : Option String
deriving DecidableEq, Repr

/-- The pydantic model `FurnitureIn` after validation: `stock` defaulted
to 0, omitted optional fields set to null. -/
structure FurnitureIn where
  name : String
  category : String
  material : Option String
  price : ℚ
  stock : Int
  width_cm : Option ℚ
  depth_cm : Option ℚ
  height_cm : Option ℚ
  image_url : Option String
deriving DecidableEq, Repr

/-- Pydantic validation of a well-typed body against `FurnitureIn`. -/
def FurnitureIn.ofPayload (p : FurniturePayload) : FurnitureIn :=
  { name := p.name, category := p.category, material := p.material,
    price := p.price, stock := p.stock.getD 0, width_cm := p.width_cm,
    depth_cm := p.depth_cm, height_cm := p.height_cm, image_url := p.image_url }

/-- The response model `FurnitureOut`. -/
structure FurnitureOut where
  id : String
  name : String
  category : String
  material : Option String
  price : ℚ
  stock : Int
  width_cm : Option ℚ
  depth_cm : Option ℚ
  height_cm : Option ℚ
  image_url : Option String
deriving DecidableEq, Repr

/-- The document-to-output mapping done in `list_furniture` and
`get_furniture`: `d.get("stock", 0)` defaults an absent stock to 0. -/
def docToOut (d : Doc) : FurnitureOut :=
  { id := d.oid, name := d.name, category := d.category, material := d.material,
    price := d.price, stock := d.stock.getD 0, width_cm := d.width_cm,
    depth_cm := d.depth_cm, height_cm := d.height_cm, image_url := d.image_url }

/-! ### Filters and the store adapter -/

/-- The filter dictionary built by the handlers: at most an `_id` equality,
a `category` equality, and a `$regex` condition on `name`. -/
structure StoreFilter where
  oid : Option String
  category : Option String
  nameRegex : Option String
deriving DecidableEq, Repr

def docMatches (f : StoreFilter) (d : Doc) : Bool :=
  (match f.oid with | none => true | some o => d.oid = o) &&
  (match f.category with | none => true | some c => d.category = c) &&
  (match f.nameRegex with | none => true | some q => regexSearchI q d.name)

/-- Python truthiness of an optional string parameter (`if category:`):
true exactly when present and non-empty. -/
def truthy : Option String → Bool
  | none => false
  | some s => !s.isEmpty

/-- The filter built by `list_furniture` from its query parameters. -/
def buildFilter (category q : Option String) : StoreFilter :=
  { oid := none,
    category := if truthy category then category else none,
    nameRegex := if truthy q then q else none }

/-- Modelled from the spec: `get_documents` / `find(collection, filter)`
returns the documents matching the filter, in store order. -/
def get_documents (store : List Doc) (f : StoreFilter) : List Doc :=
  store.filter (docMatches f)

/-- Modelled from the spec: `get_documents` with a `limit` cap. -/
def get_documents_limited (store : List Doc) (f : StoreFilter) (limit : Nat) : List Doc :=
  (store.filter (docMatches f)).take limit

/-- The document inserted for a validated body, with the store-assigned id. -/
def furnitureDoc (freshId : String) (item : FurnitureIn) : Doc :=
  { oid := freshId, name := item.name, category := item.category,
    material := item.material, price := item.price, stock := some item.stock,
    width_cm := item.width_cm, depth_cm := item.depth_cm,
    height_cm := item.height_cm, image_url := item.image_url,
    updated_at := none }

/-- Modelled from the spec: `create_document` / `insert(collection, record)`
appends the document with the store-assigned id `freshId`, or fails with
`StoreUnavailable` when no connection is established. -/
def create_document (db : Option (List Doc)) (freshId : String) (item : FurnitureIn) :
    Except String (String × List Doc) :=
  match db with
  | none => Except.error "StoreUnavailable"
  | some store => Except.ok (freshId, store ++ [furnitureDoc freshId item])

/-- `find_one_and_update` with a `$set` of every `FurnitureIn` field plus
`updated_at`: updates the first document matching the id, returns the
updated document or `none`; the collection is unchanged when nothing
matches. -/
def updateFirst (o : String) (f : Doc → Doc) : List Doc → Option Doc × List Doc
  | [] => (none, [])
  | d :: ds =>
    if d.oid = o then (some (f d), f d :: ds)
    else
      let r := updateFirst o f ds
      (r.1, d :: r.2)

/-- `delete_one`: removes the first document matching the id, returns the
deleted count (0 or 1). -/
def deleteFirst (o : String) : List Doc → Nat × List Doc
  | [] => (0, [])
  | d :: ds =>
    if d.oid = o then (1, ds)
    else
      let r := deleteFirst o ds
      (r.1, d :: r.2)

/-- The `$set` document built by `update_furniture`: every `FurnitureIn`
field from the body plus `updated_at = datetime.utcnow()`. -/
def applySet (item : FurnitureIn) (now : Nat) (d : Doc) : Doc :=
  { d with
    name := item.name, category := item.category,
    material := item.material, price := item.price, stock := some item.stock,
    width_cm := item.width_cm, depth_cm := item.depth_cm,
    height_cm := item.height_cm, image_url := item.image_url,
    updated_at := some now }

/-! ### Handlers (`src/main.py`) -/

/-- Outcome of a mutating handler: the response, the resulting collection
state (`none` when no store connection exists), and whether the store
write/update/delete operation was invoked. -/
structure MutOutcome where
  resp : Resp String
  store : Option (List Doc)
  storeInvoked : Bool
deriving DecidableEq, Repr

/-- `POST /api/furniture` (`create_furniture`, main.py:81-88).  Constructs
the record and calls `create_document` unconditionally; any exception is
mapped to a 500 with its message.  The 200 body `{"id": i}` is modelled as
`Resp.ok i`. -/
def create_furniture (db : Option (List Doc)) (freshId : String) (item : FurnitureIn) :
    MutOutcome :=
  match create_document db freshId item with
  | Except.ok (i, store) => ⟨Resp.ok i, some store, true⟩
  | Except.error e => ⟨Resp.error 500 e, db, true⟩

/-- `GET /api/furniture` (`list_furniture`, main.py:91-116). -/
def list_furniture (db : Option (List Doc)) (category q : Option String) :
    Resp (List FurnitureOut) :=
  match db with
  | none => Resp.error 500 "StoreUnavailable"
  | some store => Resp.ok ((get_documents store (buildFilter category q)).map docToOut)

/-- `GET /api/furniture/{item_id}` (`get_furniture`, main.py:118-140).
`ObjectId(item_id)` is evaluated before the store is consulted; an invalid
id raises and is caught by the generic handler as a 500. -/
def get_furniture (db : Option (List Doc)) (item_id : String) : Resp FurnitureOut :=
  match parseObjectId item_id with
  | none => Resp.error 500 (invalidIdMessage item_id)
  | some o =>
    match db with
    | none => Resp.error 500 "StoreUnavailable"
    | some store =>
      match get_documents_limited store ⟨some o, none, none⟩ 1 with
      | [] => Resp.error 404 "Item not found"
      | d :: _ => Resp.ok (docToOut d)

/-- `PUT /api/furniture/{item_id}` (`update_furniture`, main.py:142-160).
Prechecks `db is None`, then parses the id, then calls
`find_one_and_update`.  The 200 body `{"status": "ok"}` is modelled as
`Resp.ok "ok"`. -/
def update_furniture (db : Option (List Doc)) (item_id : String) (item : FurnitureIn)
    (now : Nat) : MutOutcome :=
  match db with
  | none => ⟨Resp.error 500 "Database not available", none, false⟩
  | some store =>
    match parseObjectId item_id with
    | none => ⟨Resp.error 500 (invalidIdMessage item_id), some store, false⟩
    | some o =>
      let r := updateFirst o (applySet item now) store
      match r.1 with
      | none => ⟨Resp.error 404 "Item not found", some r.2, true⟩
      | some _ => ⟨Resp.ok "ok", some r.2, true⟩

/-- `DELETE /api/furniture/{item_id}` (`delete_furniture`, main.py:162-174).
Prechecks `db is None`, then parses the id, then calls `delete_one`.  The
200 body `{"status": "deleted"}` is modelled as `Resp.ok "deleted"`. -/
def delete_furniture (db : Option (List Doc)) (item_id : String) : MutOutcome :=
  match db with
  | none => ⟨Resp.error 500 "Database not available", none, false⟩
  | some store =>
    match parseObjectId item_id with
    | none => ⟨Resp.error 500 (invalidIdMessage item_id), some store, false⟩
    | some o =>
      let r := deleteFirst o store
      if r.1 = 0 then ⟨Resp.error 404 "Item not found", some r.2, true⟩
      else ⟨Resp.ok "deleted", some r.2, true⟩

/-! ### `GET /test` (`test_database`, main.py:29-63) -/

/-- The database handle as seen by `/test`: its `name` attribute when it
has one, and the result of `list_collection_names()` (a list, or the
message of the exception it raises). -/
structure DbHandle where
  nameAttr : Option String
  collections : Except String (List String)
deriving Repr

/-- Which of the two environment configuration values are set. -/
structure Env where
  database_url_set : Bool
  database_name_set : Bool
deriving DecidableEq, Repr

structure TestResponse where
  backend : String
  database : String
  database_url : String
  database_name : String
  connection_status : String
  collections : List String
deriving DecidableEq, Repr

/-- The body built by `test_database`.  Mirrors the handler: the initial
dict, the `db is not None` branch with the inner try around
`list_collection_names`, and the final unconditional overwrite of
`database_url` / `database_name` from the environment. -/
def test_database (db : Option DbHandle) (env : Env) : TestResponse :=
  let base : TestResponse :=
    { backend := "✅ Running", database := "❌ Not Available",
      database_url := "", database_name := "",
      connection_status := "Not Connected", collections := [] }
  let probed : TestResponse :=
    match db with
    | none => { base with database := "⚠️  Available but not initialized" }
    | some h =>
      let r1 := { base with
        database := "✅ Available",
        database_url := "✅ Configured",
        database_name := (match h.nameAttr with | some n => n | none => "✅ Connected"),
        connection_status := "Connected" }
      match h.collections with
      | Except.ok cs =>
        { r1 with collections := cs.take 10, database := "✅ Connected & Working" }
      | Except.error e =>
        { r1 with database := "⚠️  Connected but Error: " ++ e.take 50 }
  { probed with
    database_url := if env.database_url_set then "✅ Set" else "❌ Not Set",
    database_name := if env.database_name_set then "✅ Set" else "❌ Not Set" }

/-- The `/test` endpoint: the handler returns the dict, so FastAPI always
responds 200 with it. -/
def test_endpoint (db : Option DbHandle) (env : Env) : Resp TestResponse :=
  Resp.ok (test_database db env)

/-! ### Helper lemmas -/

theorem truthy_empty : truthy (some "") = false := by decide

theorem truthy_none : truthy none = false := rfl

theorem truthy_of_ne (s : String) (h : s ≠ "") : truthy (some s) = true := by
  have he : s.isEmpty = false := by
    rw [Bool.eq_false_iff]
    intro he
    exact h ((String.isEmpty_iff s).mp he)
  simp [truthy, he]

theorem parseRx_of_no_dot (q : String) (h : '.' ∉ q.data) :
    parseRx q = q.data.map RAtom.lit := by
  unfold parseRx
  apply List.map_congr_left
  intro c hc
  have hcd : c ≠ '.' := fun hcd => h (hcd ▸ hc)
  simp [hcd]

theorem matchPrefix_map_lit (l s : List Char) :
    matchPrefix (l.map RAtom.lit) s = isPrefixCF l s := by
  induction l generalizing s with
  | nil => cases s <;> rfl
  | cons a p ih =>
    cases s with
    | nil => rfl
    | cons b t => simp [matchPrefix, isPrefixCF, atomMatches, ih]

theorem searchFrom_map_lit (l s : List Char) :
    searchFrom (l.map RAtom.lit) s = isSubstrCF l s := by
  induction s with
  | nil => simp [searchFrom, isSubstrCF, matchPrefix_map_lit]
  | cons b t ih => simp [searchFrom, isSubstrCF, matchPrefix_map_lit, ih]

theorem regexSearchI_eq_containsCI (q s : String) (h : '.' ∉ q.data) :
    regexSearchI q s = containsCI q s := by
  unfold regexSearchI containsCI
  rw [parseRx_of_no_dot q h, searchFrom_map_lit]

theorem updateFirst_of_not_mem (o : String) (f : Doc → Doc) (l : List Doc)
    (h : ∀ d ∈ l, d.oid ≠ o) : updateFirst o f l = (none, l) := by
  induction l with
  | nil => rfl
  | cons d ds ih =>
    have hd : d.oid ≠ o := h d (List.mem_cons_self d ds)
    simp [updateFirst, hd, ih fun e he => h e (List.mem_cons_of_mem d he)]

theorem updateFirst_append (o : String) (f : Doc → Doc) (pre post : List Doc) (d : Doc)
    (h : ∀ e ∈ pre, e.oid ≠ o) (hd : d.oid = o) :
    updateFirst o f (pre ++ d :: post) = (some (f d), pre ++ f d :: post) := by
  induction pre with
  | nil => simp [updateFirst, hd]
  | cons e es ih =>
    have he : e.oid ≠ o := h e (List.mem_cons_self e es)
    simp [updateFirst, he, ih fun x hx => h x (List.mem_cons_of_mem e hx)]

theorem deleteFirst_of_not_mem (o : String) (l : List Doc)
    (h : ∀ d ∈ l, d.oid ≠ o) : deleteFirst o l = (0, l) := by
  induction l with
  | nil => rfl
  | cons d ds ih =>
    have hd : d.oid ≠ o := h d (List.mem_cons_self d ds)
    simp [deleteFirst, hd, ih fun e he => h e (List.mem_cons_of_mem d he)]

theorem deleteFirst_append (o : String) (pre post : List Doc) (d : Doc)
    (h : ∀ e ∈ pre, e.oid ≠ o) (hd : d.oid = o) :
    deleteFirst o (pre ++ d :: post) = (1, pre ++ post) := by
  induction pre with
  | nil => simp [deleteFirst, hd]
  | cons e es ih =>
    have he : e.oid ≠ o := h e (List.mem_cons_self e es)
    simp [deleteFirst, he, ih fun x hx => h x (List.mem_cons_of_mem e hx)]

theorem docMatches_oid (o : String) (d : Doc) :
    docMatches ⟨some o, none, none⟩ d = decide (d.oid = o) := by
  simp [docMatches]

/-! ### Concrete fixtures for witnesses and counterexamples -/

/-- A sample stored document. -/
def docTable : Doc :=
  { oid := "0123456789abcdef01234567", name := "Table", category := "Tables",
    material := none, price := 100, stock := some 3, width_cm := none,
    depth_cm := none, height_cm := none, image_url := none, updated_at := none }

/-- A sample validated request body. -/
def itemOak : FurnitureIn :=
  { name := "Oak Desk", category := "Desks", material := none, price := 200,
    stock := 0, width_cm := none, depth_cm := none, height_cm := none,
    image_url := none }

/-- A sample raw request body with `stock` and all optional fields omitted. -/
def payloadOak : FurniturePayload :=
  { name := "Oak Desk", category := "Desks", material := none, price := 200,
    stock := none, width_cm := none, depth_cm := none, height_cm := none,
    image_url := none }

/-! ### Claims -/

/-- C1 (amended): `GET /api/furniture?q=...` interprets `q` as a
case-insensitive regular expression on `name`; when `q` is non-empty and
contains no regular-expression metacharacter, it returns exactly the stored
records whose `name` contains `q` as a case-insensitive substring. -/
theorem C1_q_substring_when_no_metachar (store : List Doc) (q : String)
    (hq : q ≠ "") (hmeta : ∀ c ∈ q.data, isRegexMeta c = false) :
    list_furniture (some store) none (some q) =
      Resp.ok ((store.filter fun d => containsCI q d.name).map docToOut) := by
  have hdot : '.' ∉ q.data := by
    intro hc
    have := hmeta '.' hc
    simp [isRegexMeta] at this
  have hbf : buildFilter none (some q) = ⟨none, none, some q⟩ := by
    simp [buildFilter, truthy_none, truthy_of_ne q hq]
  have hfil : store.filter (docMatches ⟨none, none, some q⟩) =
      store.filter (fun d => containsCI q d.name) := by
    apply List.filter_congr
    intro d _
    simp [docMatches, regexSearchI_eq_containsCI q d.name hdot]
  simp [list_furniture, get_documents, hbf, hfil]

/-- C1 witness: for `q = "tab"` against a store holding "Table", the result
is exactly the substring-filtered store. -/
theorem C1_q_substring_when_no_metachar_witness :
    ("tab" ≠ "" ∧ ∀ c ∈ "tab".data, isRegexMeta c = false) ∧
    list_furniture (some [docTable]) none (some "tab") =
      Resp.ok (([docTable].filter fun d => containsCI "tab" d.name).map docToOut) :=
  ⟨⟨by decide, by decide⟩,
    C1_q_substring_when_no_metachar [docTable] "tab" (by decide) (by decide)⟩

/-- C1 counterexample: with the store holding a record named "Table", the
query `q = "."` (a regex metacharacter) returns that record although "."
does not occur in "Table" as a (case-insensitive) substring: `q` is a
regular expression, not a literal. -/
theorem C1_counterexample :
    list_furniture (some [docTable]) none (some ".") = Resp.ok [docToOut docTable] ∧
    containsCI "." docTable.name = false := by
  exact ⟨rfl, rfl⟩

/-- C3 (amended): with no live store connection, the PUT and DELETE handlers
precheck connectivity and fail with HTTP 500 before invoking the store
operation; the POST handler does not precheck: it invokes `create_document`
regardless, which fails with `StoreUnavailable`, surfaced as HTTP 500. -/
theorem C3_precheck_put_delete_not_post (item_id : String) (item : FurnitureIn)
    (now : Nat) (freshId : String) :
    update_furniture none item_id item now =
      ⟨Resp.error 500 "Database not available", none, false⟩ ∧
    delete_furniture none item_id =
      ⟨Resp.error 500 "Database not available", none, false⟩ ∧
    (create_furniture none freshId item).storeInvoked = true ∧
    (create_furniture none freshId item).resp = Resp.error 500 "StoreUnavailable" :=
  ⟨rfl, rfl, rfl, rfl⟩

/-- C3 counterexample: with no store connection, `create_furniture` still
invokes the store insert operation, contradicting the claim that the store
is never invoked in that case on the POST path. -/
theorem C3_counterexample :
    (create_furniture none "0123456789abcdef01234567" itemOak).storeInvoked = true ∧
    (create_furniture none "0123456789abcdef01234567" itemOak).resp.status = 500 :=
  ⟨rfl, rfl⟩

/-- C4: for every `item_id` that does not parse as an ObjectId,
`GET /api/furniture/{item_id}` does not raise an uncaught exception: it
returns an HTTP error (status 500, within 4xx-5xx) whose body is the JSON
object `{"detail": message}`. -/
theorem C4_invalid_id_no_crash (db : Option (List Doc)) (item_id : String)
    (h : parseObjectId item_id = none) :
    get_furniture db item_id = Resp.error 500 (invalidIdMessage item_id) ∧
    400 ≤ (get_furniture db item_id).status ∧
    (get_furniture db item_id).status ≤ 599 ∧
    (get_furniture db item_id).detailOf = some (invalidIdMessage item_id) := by
  have hg : get_furniture db item_id = Resp.error 500 (invalidIdMessage item_id) := by
    simp [get_furniture, h]
  refine ⟨hg, ?_, ?_, ?_⟩ <;> rw [hg]
  · exact by norm_num [Resp.status]
  · exact by norm_num [Resp.status]
  · rfl

/-- C4 witness at the unparseable id "notanid". -/
theorem C4_invalid_id_no_crash_witness :
    parseObjectId "notanid" = none ∧
    (get_furniture none "notanid" = Resp.error 500 (invalidIdMessage "notanid") ∧
     400 ≤ (get_furniture none "notanid").status ∧
     (get_furniture none "notanid").status ≤ 599 ∧
     (get_furniture none "notanid").detailOf = some (invalidIdMessage "notanid")) :=
  ⟨by decide, C4_invalid_id_no_crash none "notanid" (by decide)⟩

/-- C10: an empty-string query parameter (`category=""` or `q=""`) is falsy
in Python, so no filter condition is added for it: the result equals the
result with that parameter absent. -/
theorem C10_empty_param_as_absent (db : Option (List Doc)) (category q : Option String) :
    list_furniture db (some "") q = list_furniture db none q ∧
    list_furniture db category (some "") = list_furniture db category none := by
  have h1 : buildFilter (some "") q = buildFilter none q := by
    simp [buildFilter, truthy_empty, truthy_none]
  have h2 : buildFilter category (some "") = buildFilter category none := by
    simp [buildFilter, truthy_empty, truthy_none]
  cases db with
  | none => exact ⟨rfl, rfl⟩
  | some store => simp [list_furniture, h1, h2]

/-- C2: for a valid payload `p`, POST returns 200 with the new id, and a
subsequent GET of that id returns the record with the fields of `p`, with
`stock` equal to 0 when omitted and each omitted optional field null. -/
theorem C2_post_get_roundtrip (store : List Doc) (p : FurniturePayload) (freshId : String)
    (hvalid : parseObjectId freshId = some freshId)
    (hfresh : ∀ d ∈ store, d.oid ≠ freshId) :
    (create_furniture (some store) freshId (FurnitureIn.ofPayload p)).resp =
      Resp.ok freshId ∧
    get_furniture (create_furniture (some store) freshId (FurnitureIn.ofPayload p)).store
        freshId =
      Resp.ok { id := freshId, name := p.name, category := p.category,
                material := p.material, price := p.price, stock := p.stock.getD 0,
                width_cm := p.width_cm, depth_cm := p.depth_cm,
                height_cm := p.height_cm, image_url := p.image_url } := by
  have hc : create_furniture (some store) freshId (FurnitureIn.ofPayload p) =
      ⟨Resp.ok freshId,
       some (store ++ [furnitureDoc freshId (FurnitureIn.ofPayload p)]), true⟩ := rfl
  refine ⟨by rw [hc], ?_⟩
  rw [hc]
  have hnil : store.filter (docMatches ⟨some freshId, none, none⟩) = [] := by
    rw [List.filter_eq_nil_iff]
    intro d hd
    simp [docMatches, hfresh d hd]
  simp [get_furniture, hvalid, get_documents_limited, List.filter_append, hnil,
        docMatches, furnitureDoc, docToOut, FurnitureIn.ofPayload]

/-- C2 witness: inserting the Oak Desk payload into an empty store and
reading it back. -/
theorem C2_post_get_roundtrip_witness :
    (parseObjectId "0123456789abcdef01234567" = some "0123456789abcdef01234567" ∧
     ∀ d ∈ ([] : List Doc), d.oid ≠ "0123456789abcdef01234567") ∧
    ((create_furniture (some []) "0123456789abcdef01234567"
        (FurnitureIn.ofPayload payloadOak)).resp = Resp.ok "0123456789abcdef01234567" ∧
     get_furniture (create_furniture (some []) "0123456789abcdef01234567"
        (FurnitureIn.ofPayload payloadOak)).store "0123456789abcdef01234567" =
      Resp.ok { id := "0123456789abcdef01234567", name := payloadOak.name,
                category := payloadOak.category, material := payloadOak.material,
                price := payloadOak.price, stock := payloadOak.stock.getD 0,
                width_cm := payloadOak.width_cm, depth_cm := payloadOak.depth_cm,
                height_cm := payloadOak.height_cm, image_url := payloadOak.image_url }) :=
  ⟨⟨by decide, by decide⟩,
    C2_post_get_roundtrip [] payloadOak "0123456789abcdef01234567" (by decide) (by decide)⟩

/-- C5: deleting a stored record twice: the first DELETE returns 200 with
`{"status": "deleted"}` and removes the record; the second returns 404 and
leaves the collection unchanged. -/
theorem C5_delete_twice (store : List Doc) (d : Doc)
    (hmem : d ∈ store) (hnd : (store.map Doc.oid).Nodup)
    (hid : parseObjectId d.oid = some d.oid) :
    ∃ store1,
      delete_furniture (some store) d.oid = ⟨Resp.ok "deleted", some store1, true⟩ ∧
      (∀ e ∈ store1, e.oid ≠ d.oid) ∧
      delete_furniture (some store1) d.oid =
        ⟨Resp.error 404 "Item not found", some store1, true⟩ := by
  obtain ⟨pre, post, rfl⟩ := List.append_of_mem hmem
  rw [List.map_append, List.map_cons] at hnd
  have hdisj : (pre.map Doc.oid).Disjoint (d.oid :: post.map Doc.oid) :=
    (List.nodup_append.mp hnd).2.2
  have hconsnd : (d.oid :: post.map Doc.oid).Nodup := (List.nodup_append.mp hnd).2.1
  have hpre : ∀ e ∈ pre, e.oid ≠ d.oid := by
    intro e he heq
    exact hdisj (List.mem_map_of_mem Doc.oid he)
      (heq ▸ List.mem_cons_self d.oid (post.map Doc.oid))
  have hpost : ∀ e ∈ post, e.oid ≠ d.oid := by
    intro e he heq
    exact (List.nodup_cons.mp hconsnd).1 (heq ▸ List.mem_map_of_mem Doc.oid he)
  have hdel1 : deleteFirst d.oid (pre ++ d :: post) = (1, pre ++ post) :=
    deleteFirst_append d.oid pre post d hpre rfl
  have hnot : ∀ e ∈ pre ++ post, e.oid ≠ d.oid := by
    intro e he
    rcases List.mem_append.mp he with h | h
    · exact hpre e h
    · exact hpost e h
  have hdel2 : deleteFirst d.oid (pre ++ post) = (0, pre ++ post) :=
    deleteFirst_of_not_mem d.oid (pre ++ post) hnot
  refine ⟨pre ++ post, ?_, hnot, ?_⟩
  · simp [delete_furniture, hid, hdel1]
  · simp [delete_furniture, hid, hdel2]

/-- C5 witness: the store holding exactly the sample record. -/
theorem C5_delete_twice_witness :
    (docTable ∈ [docTable] ∧ ([docTable].map Doc.oid).Nodup ∧
     parseObjectId docTable.oid = some docTable.oid) ∧
    (∃ store1,
      delete_furniture (some [docTable]) docTable.oid =
        ⟨Resp.ok "deleted", some store1, true⟩ ∧
      (∀ e ∈ store1, e.oid ≠ docTable.oid) ∧
      delete_furniture (some store1) docTable.oid =
        ⟨Resp.error 404 "Item not found", some store1, true⟩) :=
  ⟨⟨by decide, by decide, by decide⟩,
    C5_delete_twice [docTable] docTable (by decide) (by decide) (by decide)⟩

/-- C6 (amended): for every id that parses as a valid identifier and
matches no stored document, PUT returns HTTP 404 and leaves the collection
unchanged (no document is created); an id that does not parse returns
HTTP 500 instead, also leaving the collection unchanged. -/
theorem C6_put_missing_404 (store : List Doc) (item_id o : String) (item : FurnitureIn)
    (now : Nat) (hp : parseObjectId item_id = some o)
    (habs : ∀ d ∈ store, d.oid ≠ o) :
    update_furniture (some store) item_id item now =
      ⟨Resp.error 404 "Item not found", some store, true⟩ := by
  simp [update_furniture, hp, updateFirst_of_not_mem o (applySet item now) store habs]

/-- C6 witness: a valid, absent id against the empty collection. -/
theorem C6_put_missing_404_witness :
    (parseObjectId "0123456789abcdef01234567" = some "0123456789abcdef01234567" ∧
     ∀ d ∈ ([] : List Doc), d.oid ≠ "0123456789abcdef01234567") ∧
    update_furniture (some []) "0123456789abcdef01234567" itemOak 0 =
      ⟨Resp.error 404 "Item not found", some [], true⟩ :=
  ⟨⟨by decide, by decide⟩,
    C6_put_missing_404 [] "0123456789abcdef01234567" "0123456789abcdef01234567"
      itemOak 0 (by decide) (by decide)⟩

/-- C6 counterexample: the id "zzz" matches no stored document, yet PUT
returns HTTP 500 (ObjectId parsing fails), not 404; the collection is
still unchanged. -/
theorem C6_counterexample :
    (update_furniture (some []) "zzz" itemOak 0).resp.status = 500 ∧
    (update_furniture (some []) "zzz" itemOak 0).resp.status ≠ 404 ∧
    (update_furniture (some []) "zzz" itemOak 0).store = some [] :=
  ⟨rfl, by decide, rfl⟩

/-- C7: `GET /test` always returns HTTP 200 with the diagnostic object, for
every store state: failures of the collection probe are captured as strings
in the body, the `collections` field lists at most 10 names, and the two
environment fields report whether the configuration values are set. -/
theorem C7_test_always_200 (db : Option DbHandle) (env : Env) :
    (test_endpoint db env).status = 200 ∧
    test_endpoint db env = Resp.ok (test_database db env) ∧
    (test_database db env).collections.length ≤ 10 ∧
    (test_database db env).database_url =
      (if env.database_url_set then "✅ Set" else "❌ Not Set") ∧
    (test_database db env).database_name =
      (if env.database_name_set then "✅ Set" else "❌ Not Set") ∧
    (test_database db env).database =
      (match db with
       | none => "⚠️  Available but not initialized"
       | some h =>
         match h.collections with
         | Except.ok _ => "✅ Connected & Working"
         | Except.error e => "⚠️  Connected but Error: " ++ e.take 50) := by
  cases db with
  | none => refine ⟨rfl, rfl, ?_, ?_, ?_, ?_⟩ <;> simp [test_database]
  | some h =>
    cases hc : h.collections with
    | ok cs =>
      refine ⟨rfl, rfl, ?_, ?_, ?_, ?_⟩
      · simp [test_database, hc, List.length_take]
      · simp [test_database, hc]
      · simp [test_database, hc]
      · simp [test_database, hc]
    | error e =>
      refine ⟨rfl, rfl, ?_, ?_, ?_, ?_⟩ <;> simp [test_database, hc]

/-- C8: a category-only request (`?category=c`) returns exactly the stored
records whose `category` field equals `c` -- in particular only such
records; when both `category` and `q` are supplied (with `q` in the
fragment where the name condition is a case-insensitive substring match,
as in C1), the two conditions are combined with logical AND; and an
absent stored `stock` field is reported as 0. -/
theorem C8_category_exact_and (store : List Doc) (c q : String)
    (hc : c ≠ "") (hq : q ≠ "") (hmeta : ∀ ch ∈ q.data, isRegexMeta ch = false) :
    list_furniture (some store) (some c) none =
      Resp.ok ((store.filter fun d => decide (d.category = c)).map docToOut) ∧
    (∀ r, list_furniture (some store) (some c) none = Resp.ok r →
      ∀ o ∈ r, o.category = c) ∧
    list_furniture (some store) (some c) (some q) =
      Resp.ok ((store.filter fun d =>
        decide (d.category = c) && containsCI q d.name).map docToOut) ∧
    (∀ r, list_furniture (some store) (some c) (some q) = Resp.ok r →
      ∀ o ∈ r, o.category = c) ∧
    (∀ d : Doc, d.stock = none → (docToOut d).stock = 0) := by
  have hdot : '.' ∉ q.data := by
    intro hch
    have := hmeta '.' hch
    simp [isRegexMeta] at this
  have hbf1 : buildFilter (some c) none = ⟨none, some c, none⟩ := by
    simp [buildFilter, truthy_of_ne c hc, truthy_none]
  have hfil1 : store.filter (docMatches ⟨none, some c, none⟩) =
      store.filter (fun d => decide (d.category = c)) := by
    apply List.filter_congr
    intro d _
    simp [docMatches]
  have heq1 : list_furniture (some store) (some c) none =
      Resp.ok ((store.filter fun d => decide (d.category = c)).map docToOut) := by
    simp [list_furniture, get_documents, hbf1, hfil1]
  have hbf2 : buildFilter (some c) (some q) = ⟨none, some c, some q⟩ := by
    simp [buildFilter, truthy_of_ne c hc, truthy_of_ne q hq]
  have hfil2 : store.filter (docMatches ⟨none, some c, some q⟩) =
      store.filter (fun d => decide (d.category = c) && containsCI q d.name) := by
    apply List.filter_congr
    intro d _
    simp [docMatches, regexSearchI_eq_containsCI q d.name hdot]
  have heq2 : list_furniture (some store) (some c) (some q) =
      Resp.ok ((store.filter fun d =>
        decide (d.category = c) && containsCI q d.name).map docToOut) := by
    simp [list_furniture, get_documents, hbf2, hfil2]
  refine ⟨heq1, ?_, heq2, ?_, ?_⟩
  · intro r hr o ho
    rw [heq1] at hr
    cases hr
    obtain ⟨d, hd, rfl⟩ := List.mem_map.mp ho
    have hcat : d.category = c := of_decide_eq_true (List.mem_filter.mp hd).2
    simp [docToOut, hcat]
  · intro r hr o ho
    rw [heq2] at hr
    cases hr
    obtain ⟨d, hd, rfl⟩ := List.mem_map.mp ho
    have hmf := (List.mem_filter.mp hd).2
    rw [Bool.and_eq_true] at hmf
    have hcat : d.category = c := of_decide_eq_true hmf.1
    simp [docToOut, hcat]
  · intro d hd
    simp [docToOut, hd]

/-- C8 witness: category "Tables" alone, and combined with q "tab", against
the sample store. -/
theorem C8_category_exact_and_witness :
    ("Tables" ≠ "" ∧ "tab" ≠ "" ∧ ∀ ch ∈ "tab".data, isRegexMeta ch = false) ∧
    (list_furniture (some [docTable]) (some "Tables") none =
      Resp.ok (([docTable].filter fun d => decide (d.category = "Tables")).map docToOut) ∧
     (∀ r, list_furniture (some [docTable]) (some "Tables") none = Resp.ok r →
       ∀ o ∈ r, o.category = "Tables") ∧
     list_furniture (some [docTable]) (some "Tables") (some "tab") =
      Resp.ok (([docTable].filter fun d =>
        decide (d.category = "Tables") && containsCI "tab" d.name).map docToOut) ∧
     (∀ r, list_furniture (some [docTable]) (some "Tables") (some "tab") = Resp.ok r →
       ∀ o ∈ r, o.category = "Tables") ∧
     (∀ d : Doc, d.stock = none → (docToOut d).stock = 0)) :=
  ⟨⟨by decide, by decide, by decide⟩,
    C8_category_exact_and [docTable] "Tables" "tab" (by decide) (by decide) (by decide)⟩

/-- C9: PUT on a stored document overwrites every `FurnitureRecord` field
with the body, stamps `updated_at` with the current time, keeps the `_id`
unchanged, and returns 200 with `{"status": "ok"}`. -/
theorem C9_put_replaces_all_fields (pre post : List Doc) (d : Doc) (item : FurnitureIn)
    (item_id : String) (now : Nat)
    (hp : parseObjectId item_id = some d.oid)
    (hpre : ∀ e ∈ pre, e.oid ≠ d.oid) :
    update_furniture (some (pre ++ d :: post)) item_id item now =
      ⟨Resp.ok "ok", some (pre ++ applySet item now d :: post), true⟩ ∧
    (applySet item now d).oid = d.oid ∧
    (applySet item now d).updated_at = some now ∧
    (applySet item now d).name = item.name ∧
    (applySet item now d).category = item.category ∧
    (applySet item now d).material = item.material ∧
    (applySet item now d).price = item.price ∧
    (applySet item now d).stock = some item.stock ∧
    (applySet item now d).width_cm = item.width_cm ∧
    (applySet item now d).depth_cm = item.depth_cm ∧
    (applySet item now d).height_cm = item.height_cm ∧
    (applySet item now d).image_url = item.image_url := by
  have hupd := updateFirst_append d.oid (applySet item now) pre post d hpre rfl
  refine ⟨?_, rfl, rfl, rfl, rfl, rfl, rfl, rfl, rfl, rfl, rfl, rfl⟩
  simp [update_furniture, hp, hupd]

/-- C9 witness: updating the sample record in a singleton store. -/
theorem C9_put_replaces_all_fields_witness :
    (parseObjectId "0123456789abcdef01234567" = some docTable.oid ∧
     ∀ e ∈ ([] : List Doc), e.oid ≠ docTable.oid) ∧
    (update_furniture (some ([] ++ docTable :: [])) "0123456789abcdef01234567" itemOak 7 =
      ⟨Resp.ok "ok", some ([] ++ applySet itemOak 7 docTable :: []), true⟩ ∧
     (applySet itemOak 7 docTable).oid = docTable.oid ∧
     (applySet itemOak 7 docTable).updated_at = some 7 ∧
     (applySet itemOak 7 docTable).name = itemOak.name ∧
     (applySet itemOak 7 docTable).category = itemOak.category ∧
     (applySet itemOak 7 docTable).material = itemOak.material ∧
     (applySet itemOak 7 docTable).price = itemOak.price ∧
     (applySet itemOak 7 docTable).stock = some itemOak.stock ∧
     (applySet itemOak 7 docTable).width_cm = itemOak.width_cm ∧
     (applySet itemOak 7 docTable).depth_cm = itemOak.depth_cm ∧
     (applySet itemOak 7 docTable).height_cm = itemOak.height_cm ∧
     (applySet itemOak 7 docTable).image_url = itemOak.image_url) :=
  ⟨⟨by decide, by decide⟩,
    C9_put_replaces_all_fields [] [] docTable itemOak "0123456789abcdef01234567" 7
      (by decide) (by decide)⟩
